import Mathlib

/-!
Verification development for `sensational.py`, a Raspberry Pi Sense HAT
telemetry logger.  The script is a single blocking event loop driven by the
five-way joystick: LEFT starts a CSV recording session, RIGHT closes it and
moves the file into the `Finished` directory, MIDDLE shows the IPv4 address
of `wlan0`, UP toggles the LED low-light flag, and holding DOWN enters a
confirmation sub-flow that can shut the Pi down.

The embedding below mirrors the source structure directly:
  * `fileSetup`, `logData`/`dataRow`, `getSenseData`, `getIPAddress` embed the
    functions of the same names (source lines 117-175);
  * `handlePressed`, `shutdownFollow`, `downHeldStep` embed the branches of
    `main` (source lines 179-259);
  * `runAux`/`runTrace` embed the `while True` loop, driven by a finite trace
    of joystick events and poll-window boundaries; every poll-window boundary
    performs the `if recordingState: logData(...)` sampling step of lines
    252-255.

Modelling conventions:
  * the file system is explicit: `workingDir` holds files created by `open`,
    `finishedDir` is the `Finished` directory targeted by `os.rename`;
  * a CSV file is a list of rows, and a row is the list of its
    comma-plus-space separated fields (`renderRow` is the textual encoding);
  * observable actions (file operations, LED updates, log lines, the
    `os.system` shutdown invocation) are recorded in an `Effect` trace so
    that ordering properties can be stated;
  * sensor values are floats in the source; their numeric identity is
    irrelevant to every property below (only arity and placement in a row
    matter), so they are carried as `Int` stand-ins;
  * the source has three undefined-name slips that would raise `NameError`
    at runtime: `record` at line 121 (intended: the opened file name, used
    only inside a log message), `prefix` at line 191 (intended: the module
    global `filenamePrefix`, which is `"SenseLog"`), and the bare `x`, `y`,
    `z` at lines 148-156 (intended: the string keys `"x"`, `"y"`, `"z"` of
    the dictionaries returned by the sense-hat driver).  The embedding uses
    the intended referents, which are unambiguous; each site is marked.
-/

/-- Joystick direction of an input event (sense-hat `event.direction`). -/
inductive Direction
  | up
  | down
  | left
  | right
  | middle
deriving DecidableEq, Repr

/-- Joystick action of an input event (sense-hat `event.action`). -/
inductive JAction
  | pressed
  | held
  | released
deriving DecidableEq, Repr

/-- One joystick event, a (direction, action) pair. -/
structure InputEvent where
  direction : Direction
  action : JAction
deriving DecidableEq, Repr

/-- The static 8x8 glyph grids defined at source lines 51-93. -/
inductive Glyph
  | recordingG
  | loggedG
  | readyG
  | areYouSureG
  | spaceInvader
deriving DecidableEq, Repr

/-- What the LED matrix currently shows (last write wins). -/
inductive Display
  | cleared
  | shows (g : Glyph)
  | msg (s : String)
deriving DecidableEq, Repr

/-- One CSV row, as the list of its comma-plus-space separated fields. -/
abbrev Row := List String

/-- Textual encoding of a row: `", ".join(...)` (source lines 122 and 129). -/
def renderRow (r : Row) : String := String.intercalate ", " r

/-- A value appended to `sense_data`: a sensor float (carried as `Int`) or
the `datetime.datetime.now()` capture timestamp. -/
inductive PyVal
  | num (n : Int)
  | stamp (s : String)
deriving DecidableEq, Repr

/-- `str(value)` as used by `logData` (source line 129). -/
def pyStr : PyVal → String
  | .num n => toString n
  | .stamp s => s

/-- `repr(value)` for the header names (source line 122): a quoted string.
`\x27` is the ASCII apostrophe that Python `repr` puts around a `str`. -/
def pyRepr (s : String) : String := "\x27" ++ s ++ "\x27"

/-- The `header` list of source line 118: 14 column names.  Note it has no
accelerometer columns, although `getSenseData` collects accelerometer data. -/
def header : List String :=
  ["temp_h", "temp_p", "humidity", "pressure", "pitch", "roll", "yaw",
   "mag_x", "mag_y", "mag_z", "gyro_x", "gyro_y", "gyro_z", "timestamp"]

/-- The header row written at source line 122:
`", ".join(repr(value) for value in header)`. -/
def headerRow : Row := header.map pyRepr

/-- The readings one call to `getSenseData` observes: the eight sub-sensor
reads of source lines 137-156 plus the `datetime.now()` capture of line 159.
Real values are floats; `Int` stand-ins are used (see header comment). -/
structure SenseSample where
  temp_h : Int
  temp_p : Int
  humidity : Int
  pressure : Int
  pitch : Int
  roll : Int
  yaw : Int
  mag_x : Int
  mag_y : Int
  mag_z : Int
  acc_x : Int
  acc_y : Int
  acc_z : Int
  gyro_x : Int
  gyro_y : Int
  gyro_z : Int
  timestamp : String
deriving DecidableEq, Repr

/-- `getSenseData` (source lines 133-161): the ordered `sense_data` list.
Order: two temperatures, humidity, pressure (lines 137-140), orientation
pitch/roll/yaw (line 144), magnetometer x/y/z (line 148), accelerometer
x/y/z (line 152), gyroscope x/y/z (line 156), timestamp (line 159).
The bare `x`, `y`, `z` subscripts of the source are modelled as the intended
`"x"`, `"y"`, `"z"` dictionary keys.  The list has 17 entries, although the
comment at source line 116 says the header (14 names) matches it. -/
def getSenseData (h : SenseSample) : List PyVal :=
  [.num h.temp_h, .num h.temp_p, .num h.humidity, .num h.pressure,
   .num h.pitch, .num h.roll, .num h.yaw,
   .num h.mag_x, .num h.mag_y, .num h.mag_z,
   .num h.acc_x, .num h.acc_y, .num h.acc_z,
   .num h.gyro_x, .num h.gyro_y, .num h.gyro_z,
   .stamp h.timestamp]

/-- `logData` (source lines 128-130) writes one row whose fields are the
`str(...)` renderings of `sensedData`, in order. -/
def logDataRow (sensedData : List PyVal) : Row := sensedData.map pyStr

/-- The data row one sampling tick appends: `logData(outputFD, getSenseData())`
of source line 255. -/
def dataRow (h : SenseSample) : Row := logDataRow (getSenseData h)

/-- Observable actions of the program, in execution order. -/
inductive Effect
  | openFile (name : String)
  | writeRow (name : String) (r : Row)
  | closeFile (name : String)
  | renameToFinished (name : String)
  | invokeShutdown
  | setPixels (g : Glyph)
  | showMessage (s : String)
  | loadImage (s : String)
  | sleep (n : Nat)
  | clearLEDs
  | logLine (s : String)
deriving DecidableEq, Repr

/-- A directory: association list from file name to file rows. -/
abbrev Dir := List (String × List Row)

/-- Append one row to the named file (a write through the open handle). -/
def updateFile (dir : Dir) (name : String) (r : Row) : Dir :=
  dir.map fun p => if p.1 = name then (p.1, p.2 ++ [r]) else p

/-- Remove the named file (the source half of `os.rename`). -/
def removeFile (dir : Dir) (name : String) : Dir :=
  dir.filter fun p => ¬ p.1 = name

/-- Content of the named file, if present. -/
def lookupFile (dir : Dir) (name : String) : Option (List Row) :=
  (dir.find? fun p => p.1 = name).map fun p => p.2

/-- The mutable state of `main` and the file system it touches.
`recordingState` is the flag of line 180; `currentFileName` and `outputFD`
are the variables assigned at lines 191-192 (`outputFD` is the handle
identity: a fresh number per `open`, so reassignment is observable);
`workingDir` holds files created by `open` in the working directory;
`finishedDir` is the `Finished` directory; `lowLight` is `sense.low_light`. -/
structure SenseState where
  recordingState : Bool
  currentFileName : Option String
  outputFD : Option Nat
  nextFd : Nat
  workingDir : Dir
  finishedDir : Dir
  display : Display
  lowLight : Bool
deriving DecidableEq, Repr

/-- State on entry to `main`: not recording, no session, `low_light = True`
(line 33), display cleared by `sense.clear()` at line 272. -/
def st0 : SenseState :=
  { recordingState := false, currentFileName := none, outputFD := none,
    nextFd := 0, workingDir := [], finishedDir := [],
    display := Display.cleared, lowLight := true }

/-- `ifname[:15]` of source line 175: the first 15 characters of the name. -/
def takeChars (s : String) (n : Nat) : String := (s.toList.take n).asString

/-- `struct.pack('256s', bytes(ifname[:15], 'utf-8'))` of source line 175:
the UTF-8 bytes of the first 15 characters, zero-padded (and, if ever
necessary, truncated) to 256 bytes.  This is the ioctl request buffer. -/
def packIfreq (ifname : String) : List UInt8 :=
  let b := ((takeChars ifname 15).toUTF8.data.toList).take 256
  b ++ List.replicate (256 - b.length) 0

/-- `socket.inet_ntoa` applied to four bytes: dotted decimal notation. -/
def inetNtoa (bs : List UInt8) : String :=
  String.intercalate "." (bs.map fun b => toString b.toNat)

/-- The OS-level `SIOCGIFADDR` ioctl, abstracted as a function from the
request buffer to either the 256-byte response buffer or an errno.  The
source comment (lines 167-173) documents errno 19 (`ENODEV`, interface
missing) and errno 99 (`EADDRNOTAVAIL`, no IPv4 bound); both surface in
Python as `OSError`. -/
abbrev Ioctl := List UInt8 → Except Int (List UInt8)

/-- `getIPAddress` (source lines 164-175): run `SIOCGIFADDR` for the packed
interface name and render bytes `[20:24]` of the response with `inet_ntoa`.
An `Except.error` is the `OSError` the caller catches at line 211.
(The `log.info` of line 165 is emitted by the caller branch in
`handlePressed`, since this definition is pure.) -/
def getIPAddress (ioc : Ioctl) (ifname : String) : Except Int String :=
  (ioc (packIfreq ifname)).map fun resp => inetNtoa ((resp.drop 20).take 4)

/-- The environment of one run: whether the `open` of source line 120 fails
with `IOError` (e.g. the file cannot be created), the
`time.strftime('%Y%m%d_%H%M%S', time.localtime())` stamp of line 191, and
the `SIOCGIFADDR` ioctl behaviour. -/
structure Env where
  openFails : Bool
  timeStamp : String
  ioctl : Ioctl

/-- The session file name of source line 191:
`"{}-{}.csv".format(prefix, time.strftime(...))`.  The source writes
`prefix`, a NameError slip for the module global `filenamePrefix`, which is
`"SenseLog"` (lines 38 and 96-97). -/
def sessionName (env : Env) : String := "SenseLog-" ++ env.timeStamp ++ ".csv"

/-- `fileSetup` (source lines 117-125): log, `open(outputFileName, "w")`
(which creates the file; may raise `IOError`), log, write the header row,
return the handle.  The returned triple is (effects, state, uncaught
exception); on success the state has a fresh handle number in `outputFD`
and the new file, holding only the header row, in the working directory.
The log of source line 121 interpolates the undefined name `record` (a
NameError slip for the file name); it is modelled as a fixed line. -/
def fileSetup (env : Env) (st : SenseState) (outputFileName : String) :
    List Effect × SenseState × Option String :=
  if env.openFails then
    ([Effect.logLine ("Opening file " ++ outputFileName ++ " for writing.")],
     st, some "IOError: could not create file")
  else
    ([Effect.logLine ("Opening file " ++ outputFileName ++ " for writing."),
      Effect.openFile outputFileName,
      Effect.logLine "Recording file opened. Writing column headers.",
      Effect.writeRow outputFileName headerRow],
     { st with outputFD := some st.nextFd, nextFd := st.nextFd + 1,
               workingDir := st.workingDir ++ [(outputFileName, [headerRow])] },
     none)

/-- `outputFD.close()` followed by
`os.rename(currentFileName, os.path.join(outputDirectory, currentFileName))`
(source lines 199-200 and 233-234): close the handle, then move the file
from the working directory into `Finished`.  The error cases (no current
file name, or the file absent from the working directory) would raise in
Python; they are unreachable from `st0`. -/
def closeAndMove (st : SenseState) : List Effect × SenseState × Option String :=
  match st.currentFileName with
  | none => ([], st, some "TypeError: currentFileName is None")
  | some n =>
    match lookupFile st.workingDir n with
    | none => ([Effect.closeFile n], st, some "FileNotFoundError")
    | some content =>
      ([Effect.closeFile n, Effect.renameToFinished n],
       { st with workingDir := removeFile st.workingDir n,
                 finishedDir := st.finishedDir ++ [(n, content)] },
       none)

/-- Result of dispatching one event: emitted effects, resulting state, and
the uncaught exception if one was raised. -/
structure StepOut where
  effs : List Effect
  st : SenseState
  err : Option String
deriving DecidableEq, Repr

/-- The `event.action == "pressed"` dispatch chain of `main`
(source lines 187-223).  A pressed DOWN matches no branch of the chain and
is a no-op. -/
def handlePressed (env : Env) (st : SenseState) (d : Direction) : StepOut :=
  match d with
  | Direction.left =>
    -- lines 189-195: LEFT begins recording; the assignment
    -- `recordingState = True` of line 195 is outside the guard
    if st.recordingState = false then
      let nm := sessionName env
      let st1 := { st with currentFileName := some nm }
      match fileSetup env st1 nm with
      | (fe, st2, some m) => { effs := fe, st := st2, err := some m }
      | (fe, st2, none) =>
        { effs := fe ++
            [Effect.logLine "Switching to recording due to joystick LEFT input.",
             Effect.setPixels Glyph.recordingG],
          st := { st2 with display := Display.shows Glyph.recordingG,
                           recordingState := true },
          err := none }
    else { effs := [], st := { st with recordingState := true }, err := none }
  | Direction.right =>
    -- lines 197-205: RIGHT finalizes logging; `recordingState = False` of
    -- line 205 is outside the guard
    if st.recordingState then
      match closeAndMove st with
      | (ce, st2, some m) => { effs := ce, st := st2, err := some m }
      | (ce, st2, none) =>
        { effs := ce ++
            [Effect.logLine "Finishing recording due to right RIGHT input.",
             Effect.setPixels Glyph.loggedG, Effect.sleep 2,
             Effect.setPixels Glyph.readyG],
          st := { st2 with display := Display.shows Glyph.readyG,
                           recordingState := false },
          err := none }
    else { effs := [], st := { st with recordingState := false }, err := none }
  | Direction.middle =>
    -- lines 207-213: show the IPv4 address of wlan0, or a fallback message
    -- on OSError; the log of line 165 is emitted here (see getIPAddress)
    match getIPAddress env.ioctl "wlan0" with
    | Except.ok ipAdd =>
      { effs := [Effect.logLine "Retrieving IPv4 address of interface wlan0.",
                 Effect.showMessage ("IP: " ++ ipAdd)],
        st := { st with display := Display.msg ("IP: " ++ ipAdd) },
        err := none }
    | Except.error e =>
      { effs := [Effect.logLine "Retrieving IPv4 address of interface wlan0.",
                 Effect.logLine
                   ("Failed to retrive address for adapter wlan0 with OSError "
                    ++ toString e),
                 Effect.showMessage "IP: none or error"],
        st := { st with display := Display.msg "IP: none or error" },
        err := none }
  | Direction.up =>
    -- lines 215-223: show the reference image and toggle low-light
    if st.lowLight then
      { effs := [Effect.loadImage "space_invader.png",
                 Effect.logLine "Toggling to High brightness due to joystick UP input."],
        st := { st with display := Display.shows Glyph.spaceInvader,
                         lowLight := false },
        err := none }
    else
      { effs := [Effect.loadImage "space_invader.png",
                 Effect.logLine "Toggling to Low brightness due to joystick UP input."],
        st := { st with display := Display.shows Glyph.spaceInvader,
                         lowLight := true },
        err := none }
  | Direction.down => { effs := [], st := st, err := none }

/-- Result of the shutdown-confirmation follow-up: effects, state, whether
the `break` of source line 246 ran, and an uncaught exception if any. -/
structure FlowOut where
  effs : List Effect
  st : SenseState
  didBreak : Bool
  err : Option String
deriving DecidableEq, Repr

/-- Effects of entering the confirmation sub-flow (source lines 226-228):
warn, show the are-you-sure glyph, hold two seconds.  After these the
program blocks in `sense.stick.wait_for_event()` (line 229), a call with no
timeout argument. -/
def shutdownPreEffs : List Effect :=
  [Effect.logLine "Shutdown command, holding DOWN joystick, was used!",
   Effect.setPixels Glyph.areYouSureG, Effect.sleep 2]

/-- Dispatch on the single follow-up event `userInput` returned by
`wait_for_event` (source lines 230-246).  Note the two tests are separate
`if` statements, not `if`/`elif`: UP (pressed or held) confirms the
shutdown, closing and moving an active session first (lines 230-240);
DOWN pressed aborts and `break`s (lines 241-246); anything else falls
through both tests and silently resumes the event loop. -/
def shutdownFollow (st : SenseState) (u : InputEvent) : FlowOut :=
  let fo1 :=
    if u.direction = Direction.up ∧
        (u.action = JAction.pressed ∨ u.action = JAction.held) then
      if st.recordingState then
        match closeAndMove st with
        | (ce, st2, some m) =>
          { effs := Effect.showMessage "SHUTDOWN" :: ce, st := st2,
            didBreak := false, err := some m }
        | (ce, st2, none) =>
          { effs := Effect.showMessage "SHUTDOWN" :: ce ++
              [Effect.logLine "Finished active recording due to shutdown command.",
               Effect.setPixels Glyph.loggedG, Effect.sleep 2,
               Effect.logLine "User confirmed shutdown command - shutting down!",
               Effect.invokeShutdown],
            st := { st2 with recordingState := false,
                             display := Display.shows Glyph.loggedG },
            didBreak := false, err := none }
      else
        { effs := [Effect.showMessage "SHUTDOWN",
                   Effect.logLine "User confirmed shutdown command - shutting down!",
                   Effect.invokeShutdown],
          st := { st with display := Display.msg "SHUTDOWN" },
          didBreak := false, err := none }
    else { effs := [], st := st, didBreak := false, err := none }
  if u.direction = Direction.down ∧ u.action = JAction.pressed then
    { effs := fo1.effs ++
        [Effect.setPixels Glyph.readyG, Effect.sleep 2, Effect.clearLEDs,
         Effect.logLine "Shutdown command was aborted due to user selecting N."],
      st := { fo1.st with display := Display.cleared },
      didBreak := true, err := fo1.err }
  else fo1

/-- The whole DOWN-held sub-flow (source lines 225-246) once the follow-up
event is in hand: show the confirmation glyph, then dispatch on the
follow-up. -/
def downHeldStep (st : SenseState) (u : InputEvent) : FlowOut :=
  let st1 := { st with display := Display.shows Glyph.areYouSureG }
  let fo := shutdownFollow st1 u
  { fo with effs := shutdownPreEffs ++ fo.effs }

/-- One element of the input trace the loop consumes: a joystick event
delivered by `get_events()` (line 186), or the end of one poll window -
the point where the `for` loop is exhausted and lines 252-255 sample the
Sense HAT if recording.  The sample carried by `endWindow` is what
`getSenseData()` would observe at that moment. -/
inductive TraceStep
  | ev (e : InputEvent)
  | endWindow (s : SenseSample)
deriving DecidableEq, Repr

/-- `sense.stick.wait_for_event()` (source line 229): the next joystick
event, however long it takes to arrive.  Window boundaries in between are
skipped: the program is blocked inside the wait, so no sampling happens
while it waits.  `none` means no further event ever arrives - the call has
no timeout, so the program blocks forever. -/
def nextEv : List TraceStep → Option (InputEvent × List TraceStep)
  | [] => none
  | TraceStep.ev e :: rest => some (e, rest)
  | TraceStep.endWindow _ :: rest => nextEv rest

/-- The `break` of source line 246: abandon the remaining events of the
current `for` batch; execution resumes at the sampling step of the current
`while` iteration (the next window boundary). -/
def skipToWindowEnd : List TraceStep → List TraceStep
  | [] => []
  | TraceStep.ev _ :: rest => skipToWindowEnd rest
  | TraceStep.endWindow s :: rest => TraceStep.endWindow s :: rest

/-- Outcome of running the loop on a finite trace.
`awaiting`: the trace is consumed and the loop is back at the top, waiting
for input (the `while True` loop itself never terminates normally).
`blocked`: stuck forever inside the untimed `wait_for_event` of line 229.
`crashed`: an exception escaped; `main` has `try`/`finally` with no
`except`, so the exception kills the loop after the `finally` clears the
LEDs (lines 257-259). -/
inductive RunResult
  | awaiting (st : SenseState) (effs : List Effect)
  | blocked (st : SenseState) (effs : List Effect)
  | crashed (err : String) (st : SenseState) (effs : List Effect)
deriving DecidableEq, Repr

/-- Prepend effects that happened before a sub-run. -/
def RunResult.withEffs (pre : List Effect) : RunResult → RunResult
  | RunResult.awaiting st e => RunResult.awaiting st (pre ++ e)
  | RunResult.blocked st e => RunResult.blocked st (pre ++ e)
  | RunResult.crashed m st e => RunResult.crashed m st (pre ++ e)

/-- The state a run ends in. -/
def RunResult.stateOf : RunResult → SenseState
  | RunResult.awaiting st _ => st
  | RunResult.blocked st _ => st
  | RunResult.crashed _ st _ => st

/-- The effects a run emitted. -/
def RunResult.effsOf : RunResult → List Effect
  | RunResult.awaiting _ e => e
  | RunResult.blocked _ e => e
  | RunResult.crashed _ _ e => e

/-- Whether the run ended with an uncaught exception (loop killed). -/
def RunResult.fatal : RunResult → Bool
  | RunResult.crashed _ _ _ => true
  | _ => false

/-- How many files a list of effects opens (`open(...)` calls, i.e. sessions
created). -/
def countOpens : List Effect → Nat
  | [] => 0
  | Effect.openFile _ :: rest => countOpens rest + 1
  | _ :: rest => countOpens rest

/-- The `while True` loop of `main` (source lines 182-255), driven by a
finite trace.  The fuel is an upper bound on the number of trace elements
still to consume; every recursive call strictly shrinks the remaining
trace, so `runTrace` (which supplies `trace.length`) never exhausts it.
On `endWindow`, lines 252-255 append one data row if recording.  On an
event: `pressed` events go through `handlePressed`; a held DOWN runs the
confirmation sub-flow, pulling the follow-up event from the rest of the
trace (or blocking forever if there is none); all other events (`released`,
other held directions) fall to the empty `else` of lines 248-250. -/
def runAux (env : Env) : Nat → SenseState → List TraceStep → RunResult
  | 0, st, _ => RunResult.awaiting st []
  | _ + 1, st, [] => RunResult.awaiting st []
  | fuel + 1, st, TraceStep.endWindow s :: rest =>
    if st.recordingState then
      match st.currentFileName with
      | some n =>
        (runAux env fuel
            { st with workingDir := updateFile st.workingDir n (dataRow s) }
            rest).withEffs
          [Effect.logLine "Saving data.", Effect.writeRow n (dataRow s)]
      | none =>
        RunResult.crashed "TypeError: logData with no open file"
          { st with display := Display.cleared } [Effect.clearLEDs]
    else runAux env fuel st rest
  | fuel + 1, st, TraceStep.ev e :: rest =>
    if e.action = JAction.pressed then
      match handlePressed env st e.direction with
      | { effs := fe, st := st1, err := some m } =>
        RunResult.crashed m { st1 with display := Display.cleared }
          (fe ++ [Effect.clearLEDs])
      | { effs := fe, st := st1, err := none } =>
        (runAux env fuel st1 rest).withEffs fe
    else if e.direction = Direction.down ∧ e.action = JAction.held then
      match nextEv rest with
      | none =>
        RunResult.blocked { st with display := Display.shows Glyph.areYouSureG }
          shutdownPreEffs
      | some (u, rest1) =>
        match downHeldStep st u with
        | { effs := fe, st := st1, didBreak := _, err := some m } =>
          RunResult.crashed m { st1 with display := Display.cleared }
            (fe ++ [Effect.clearLEDs])
        | { effs := fe, st := st1, didBreak := true, err := none } =>
          (runAux env fuel st1 (skipToWindowEnd rest1)).withEffs fe
        | { effs := fe, st := st1, didBreak := false, err := none } =>
          (runAux env fuel st1 rest1).withEffs fe
    else runAux env fuel st rest

/-- Run the loop on a whole trace (fuel = trace length suffices, since each
step consumes at least one trace element). -/
def runTrace (env : Env) (st : SenseState) (tr : List TraceStep) : RunResult :=
  runAux env tr.length st tr

/-- Status of the `Finished` output directory at startup, the four cases the
check at source lines 100-109 distinguishes. -/
inductive DirCondition
  | absentCreatable
  | absentUncreatable
  | presentNonDir
  | presentDir
deriving DecidableEq, Repr

/-- What the module-level startup code decides. -/
inductive StartupOutcome
  | enterLoop (logs : List String)
  | exitProcess (code : Int) (logs : List String)
deriving DecidableEq, Repr

/-- The startup check of source lines 100-109: if `Finished` is missing, try
to create it (on failure: `log.critical` and `sys.exit(-1)`); if it exists
but is not a directory: `log.critical` and `sys.exit(-1)`; otherwise fall
through to the function definitions and, eventually, `main()`. -/
def startupCheck : DirCondition → StartupOutcome
  | DirCondition.absentCreatable =>
    StartupOutcome.enterLoop
      ["Successfully created the Finished directory for CSV files."]
  | DirCondition.absentUncreatable =>
    StartupOutcome.exitProcess (-1)
      ["CRITICAL: Failed to create Finished directory for final CSV files!"]
  | DirCondition.presentNonDir =>
    StartupOutcome.exitProcess (-1)
      ["CRITICAL: outputDirectory Finished exists but is not a directory."]
  | DirCondition.presentDir => StartupOutcome.enterLoop []

/-- A whole process run: either the startup check aborted before the loop,
or the loop ran on the trace. -/
inductive ProgramResult
  | exitedEarly (code : Int) (logs : List String)
  | looped (r : RunResult)

/-- The whole script: startup check first (module level, lines 100-109),
then `main()` (line 274).  `exitedEarly` carries no `RunResult`: when the
check fails, the event loop is never entered. -/
def program (d : DirCondition) (env : Env) (tr : List TraceStep) : ProgramResult :=
  match startupCheck d with
  | StartupOutcome.exitProcess c logs => ProgramResult.exitedEarly c logs
  | StartupOutcome.enterLoop _ => ProgramResult.looped (runTrace env st0 tr)

/-- A concrete sample for concrete runs (values are arbitrary). -/
def sampleA : SenseSample :=
  { temp_h := 31, temp_p := 30, humidity := 45, pressure := 1013,
    pitch := 1, roll := 2, yaw := 3, mag_x := 4, mag_y := 5, mag_z := 6,
    acc_x := 7, acc_y := 8, acc_z := 9, gyro_x := 10, gyro_y := 11,
    gyro_z := 12, timestamp := "2016-01-01 00:00:01" }

/-- A benign environment: `open` succeeds; `wlan0` has no IPv4 bound, so the
ioctl fails with errno 99 (`EADDRNOTAVAIL`). -/
def envA : Env :=
  { openFails := false, timeStamp := "20160101_000000",
    ioctl := fun _ => Except.error 99 }

/-- An environment where the output file cannot be created. -/
def envBadOpen : Env :=
  { openFails := true, timeStamp := "20160101_000000",
    ioctl := fun _ => Except.error 19 }

/-- A mid-session state: recording, one open file holding only the header. -/
def stRecA : SenseState :=
  { recordingState := true,
    currentFileName := some "SenseLog-20160101_000000.csv",
    outputFD := some 0, nextFd := 1,
    workingDir := [("SenseLog-20160101_000000.csv", [headerRow])],
    finishedDir := [], display := Display.shows Glyph.recordingG,
    lowLight := true }

/-- A full LEFT - one sample - RIGHT cycle as an input trace. -/
def cycleTraceA : List TraceStep :=
  [TraceStep.ev ⟨Direction.left, JAction.pressed⟩,
   TraceStep.endWindow sampleA,
   TraceStep.ev ⟨Direction.right, JAction.pressed⟩]

/-- The state after a LEFT press from `st0` when `open` succeeds: one fresh
session, file holding only the header row. -/
def leftStepState (env : Env) : SenseState :=
  { recordingState := true, currentFileName := some (sessionName env),
    outputFD := some 0, nextFd := 1,
    workingDir := [(sessionName env, [headerRow])], finishedDir := [],
    display := Display.shows Glyph.recordingG, lowLight := true }

/-- The effects of that LEFT press. -/
def leftStepEffs (env : Env) : List Effect :=
  [Effect.logLine ("Opening file " ++ sessionName env ++ " for writing."),
   Effect.openFile (sessionName env),
   Effect.logLine "Recording file opened. Writing column headers.",
   Effect.writeRow (sessionName env) headerRow,
   Effect.logLine "Switching to recording due to joystick LEFT input.",
   Effect.setPixels Glyph.recordingG]

/-- The state after a LEFT press and one sampling tick. -/
def afterOneSample (env : Env) (s : SenseSample) : SenseState :=
  { recordingState := true, currentFileName := some (sessionName env),
    outputFD := some 0, nextFd := 1,
    workingDir := [(sessionName env, [headerRow, dataRow s])], finishedDir := [],
    display := Display.shows Glyph.recordingG, lowLight := true }

theorem withEffs_nil (r : RunResult) : r.withEffs [] = r := by
  cases r <;> rfl

theorem setRecording_true_eq (st : SenseState) (h : st.recordingState = true) :
    { st with recordingState := true } = st := by
  cases st
  simp_all

/-- A LEFT press while already recording is a complete no-op: the guard at
source line 190 protects the session, and line 195 rewrites `recordingState`
with the value it already has. -/
theorem handlePressed_left_rec (env : Env) (st : SenseState)
    (h : st.recordingState = true) :
    handlePressed env st Direction.left = ⟨[], st, none⟩ := by
  simp only [handlePressed, h]
  simp [setRecording_true_eq st h]

/-- A LEFT press from the initial idle state, when `open` succeeds. -/
theorem handlePressed_left_idle (env : Env) (hOpen : env.openFails = false) :
    handlePressed env st0 Direction.left =
      ⟨leftStepEffs env, leftStepState env, none⟩ := by
  simp [handlePressed, fileSetup, hOpen, st0, leftStepEffs, leftStepState]

/-- Extra LEFT presses while recording are consumed without any state change
or effect. -/
theorem runAux_left_noop (env : Env) :
    ∀ (m f : Nat) (st : SenseState) (tail : List TraceStep),
      st.recordingState = true →
      runAux env (f + m) st
          (List.replicate m (TraceStep.ev ⟨Direction.left, JAction.pressed⟩) ++ tail) =
        runAux env f st tail := by
  intro m
  induction m with
  | zero => intro f st tail _; simp
  | succ k ih =>
    intro f st tail h
    rw [List.replicate_succ, List.cons_append]
    show runAux env (f + k + 1) st _ = _
    simp only [runAux]
    simp only [handlePressed_left_rec env st h]
    rw [withEffs_nil]
    exact ih f st tail h

/-- C4: when the shutdown confirmation sub-flow is entered and the follow-up
event is DOWN pressed, the shutdown is aborted (source lines 241-246: ready
glyph, clear, log, `break`) and the recording flag, current file name, open
handle, and both directories are exactly as they were before the DOWN-held
event; only the display changed (it ends cleared).  Idle stays Idle and
Recording stays Recording with its session untouched. -/
theorem shutdown_abort_preserves_state (st : SenseState) :
    downHeldStep st ⟨Direction.down, JAction.pressed⟩ =
      { effs := shutdownPreEffs ++
          [Effect.setPixels Glyph.readyG, Effect.sleep 2, Effect.clearLEDs,
           Effect.logLine "Shutdown command was aborted due to user selecting N."],
        st := { st with display := Display.cleared },
        didBreak := true, err := none } ∧
    (downHeldStep st ⟨Direction.down, JAction.pressed⟩).st.recordingState = st.recordingState ∧
    (downHeldStep st ⟨Direction.down, JAction.pressed⟩).st.currentFileName = st.currentFileName ∧
    (downHeldStep st ⟨Direction.down, JAction.pressed⟩).st.outputFD = st.outputFD ∧
    (downHeldStep st ⟨Direction.down, JAction.pressed⟩).st.workingDir = st.workingDir ∧
    (downHeldStep st ⟨Direction.down, JAction.pressed⟩).st.finishedDir = st.finishedDir ∧
    (downHeldStep st ⟨Direction.down, JAction.pressed⟩).didBreak = true :=
  ⟨rfl, rfl, rfl, rfl, rfl, rfl, rfl⟩

/-- C5: the nested `sense.stick.wait_for_event()` of source line 229 is
called with no timeout.  If no further input event ever arrives after DOWN
is held (`nextEv rest = none`), the run ends `blocked`: the rest of the
trace - all its events and all its sampling ticks - is discarded, i.e. the
main loop never makes further progress. -/
theorem confirm_wait_blocks_forever (env : Env) (st : SenseState)
    (rest : List TraceStep) (h : nextEv rest = none) :
    runTrace env st (TraceStep.ev ⟨Direction.down, JAction.held⟩ :: rest) =
      RunResult.blocked { st with display := Display.shows Glyph.areYouSureG }
        shutdownPreEffs := by
  simp only [runTrace, List.length_cons, runAux, h]
  simp

/-- C7: at startup (source lines 100-109), if the `Finished` directory is
missing and cannot be created, or exists but is not a directory, the process
logs a critical error and exits with `sys.exit(-1)` (non-zero) before the
main event loop is ever entered (`exitedEarly` carries no loop run); in the
two remaining cases startup proceeds into the loop.  The four
`DirCondition` cases are exhaustive. -/
theorem startup_dir_check_gate (env : Env) (tr : List TraceStep) :
    program DirCondition.absentUncreatable env tr =
      ProgramResult.exitedEarly (-1)
        ["CRITICAL: Failed to create Finished directory for final CSV files!"] ∧
    program DirCondition.presentNonDir env tr =
      ProgramResult.exitedEarly (-1)
        ["CRITICAL: outputDirectory Finished exists but is not a directory."] ∧
    ((-1 : Int) ≠ 0) ∧
    program DirCondition.absentCreatable env tr =
      ProgramResult.looped (runTrace env st0 tr) ∧
    program DirCondition.presentDir env tr =
      ProgramResult.looped (runTrace env st0 tr) :=
  ⟨rfl, rfl, by decide, rfl, rfl⟩
/-- Witness for C5 at a concrete state and the empty remaining trace. -/
theorem confirm_wait_blocks_forever_witness :
    runTrace envA st0 [TraceStep.ev ⟨Direction.down, JAction.held⟩] =
      RunResult.blocked { st0 with display := Display.shows Glyph.areYouSureG }
        shutdownPreEffs :=
  confirm_wait_blocks_forever envA st0 [] rfl

/-- C8: on a MIDDLE press, if the `SIOCGIFADDR` ioctl for `wlan0` fails with
any errno (OSError: interface missing or no IPv4 bound), the error is caught
at source line 211: the failure is logged, the fallback message
"IP: none or error" is shown, the recording state, current file name, open
handle and working directory are unchanged, and no exception escapes
(`err = none`), so the loop is not terminated. -/
theorem middle_press_ip_failure_recovers (env : Env) (st : SenseState) (e : Int)
    (h : env.ioctl (packIfreq "wlan0") = Except.error e) :
    handlePressed env st Direction.middle =
      { effs := [Effect.logLine "Retrieving IPv4 address of interface wlan0.",
                 Effect.logLine
                   ("Failed to retrive address for adapter wlan0 with OSError "
                    ++ toString e),
                 Effect.showMessage "IP: none or error"],
        st := { st with display := Display.msg "IP: none or error" },
        err := none } ∧
    (handlePressed env st Direction.middle).st.recordingState = st.recordingState ∧
    (handlePressed env st Direction.middle).st.currentFileName = st.currentFileName ∧
    (handlePressed env st Direction.middle).st.outputFD = st.outputFD ∧
    (handlePressed env st Direction.middle).st.workingDir = st.workingDir ∧
    (handlePressed env st Direction.middle).err = none := by
  have hip : getIPAddress env.ioctl "wlan0" = Except.error e := by
    simp [getIPAddress, h, Except.map]
  refine ⟨?_, ?_, ?_, ?_, ?_, ?_⟩ <;> simp [handlePressed, hip]

/-- Witness for C8: concrete environment whose ioctl fails with errno 99. -/
theorem middle_press_ip_failure_recovers_witness :
    handlePressed envA st0 Direction.middle =
      { effs := [Effect.logLine "Retrieving IPv4 address of interface wlan0.",
                 Effect.logLine
                   ("Failed to retrive address for adapter wlan0 with OSError "
                    ++ toString (99 : Int)),
                 Effect.showMessage "IP: none or error"],
        st := { st0 with display := Display.msg "IP: none or error" },
        err := none } ∧
    (handlePressed envA st0 Direction.middle).st.recordingState = st0.recordingState ∧
    (handlePressed envA st0 Direction.middle).st.currentFileName = st0.currentFileName ∧
    (handlePressed envA st0 Direction.middle).st.outputFD = st0.outputFD ∧
    (handlePressed envA st0 Direction.middle).st.workingDir = st0.workingDir ∧
    (handlePressed envA st0 Direction.middle).err = none :=
  middle_press_ip_failure_recovers envA st0 99 rfl

/-- C9: `getIPAddress` uses only `ifname[:15]` (source line 175): any two
interface names that agree on their first 15 characters produce the same
packed ioctl request and the same result for every ioctl behaviour. -/
theorem ifname_first15_determines_query (ioc : Ioctl) (a b : String)
    (h : a.toList.take 15 = b.toList.take 15) :
    packIfreq a = packIfreq b ∧ getIPAddress ioc a = getIPAddress ioc b := by
  have ht : takeChars a 15 = takeChars b 15 := by
    unfold takeChars
    rw [h]
  have hp : packIfreq a = packIfreq b := by
    unfold packIfreq
    rw [ht]
  exact ⟨hp, by simp [getIPAddress, hp]⟩

/-- Witness for C9: two 16-character names agreeing on the first 15. -/
theorem ifname_first15_determines_query_witness :
    packIfreq "wlan0extensions1" = packIfreq "wlan0extensions2" ∧
    getIPAddress envA.ioctl "wlan0extensions1" =
      getIPAddress envA.ioctl "wlan0extensions2" :=
  ifname_first15_determines_query envA.ioctl "wlan0extensions1" "wlan0extensions2"
    (by decide)
/-- C10: in the shutdown-confirmation sub-flow, a follow-up event that is
neither UP (pressed or held) nor DOWN pressed falls through both `if`
statements of source lines 230 and 241: no effects beyond the entry effects,
no `break`, and the recording flag, current file name, open handle and both
directories are preserved - an implicit abort, except that the display still
shows the confirm-shutdown glyph (it is never replaced). -/
theorem confirm_other_input_silent_resume (st : SenseState) (u : InputEvent)
    (h1 : ¬ (u.direction = Direction.up ∧
              (u.action = JAction.pressed ∨ u.action = JAction.held)))
    (h2 : ¬ (u.direction = Direction.down ∧ u.action = JAction.pressed)) :
    downHeldStep st u =
      { effs := shutdownPreEffs,
        st := { st with display := Display.shows Glyph.areYouSureG },
        didBreak := false, err := none } ∧
    (downHeldStep st u).st.recordingState = st.recordingState ∧
    (downHeldStep st u).st.currentFileName = st.currentFileName ∧
    (downHeldStep st u).st.outputFD = st.outputFD ∧
    (downHeldStep st u).st.workingDir = st.workingDir ∧
    (downHeldStep st u).st.finishedDir = st.finishedDir ∧
    (downHeldStep st u).st.display = Display.shows Glyph.areYouSureG ∧
    (downHeldStep st u).didBreak = false := by
  have key : downHeldStep st u =
      { effs := shutdownPreEffs,
        st := { st with display := Display.shows Glyph.areYouSureG },
        didBreak := false, err := none } := by
    simp only [downHeldStep, shutdownFollow, if_neg h1, if_neg h2,
      List.append_nil]
  rw [key]
  exact ⟨rfl, rfl, rfl, rfl, rfl, rfl, rfl, rfl⟩

/-- Witness for C10: a RIGHT-pressed follow-up in a recording state. -/
theorem confirm_other_input_silent_resume_witness :
    downHeldStep stRecA ⟨Direction.right, JAction.pressed⟩ =
      { effs := shutdownPreEffs,
        st := { stRecA with display := Display.shows Glyph.areYouSureG },
        didBreak := false, err := none } ∧
    (downHeldStep stRecA ⟨Direction.right, JAction.pressed⟩).st.recordingState = stRecA.recordingState ∧
    (downHeldStep stRecA ⟨Direction.right, JAction.pressed⟩).st.currentFileName = stRecA.currentFileName ∧
    (downHeldStep stRecA ⟨Direction.right, JAction.pressed⟩).st.outputFD = stRecA.outputFD ∧
    (downHeldStep stRecA ⟨Direction.right, JAction.pressed⟩).st.workingDir = stRecA.workingDir ∧
    (downHeldStep stRecA ⟨Direction.right, JAction.pressed⟩).st.finishedDir = stRecA.finishedDir ∧
    (downHeldStep stRecA ⟨Direction.right, JAction.pressed⟩).st.display = Display.shows Glyph.areYouSureG ∧
    (downHeldStep stRecA ⟨Direction.right, JAction.pressed⟩).didBreak = false :=
  confirm_other_input_silent_resume stRecA ⟨Direction.right, JAction.pressed⟩
    (by decide) (by decide)
/-- C3: when the shutdown confirmation sub-flow is entered while a recording
session is active and the follow-up event is UP (pressed or held), the
emitted effect list places `closeFile` and `renameToFinished` strictly
before `invokeShutdown` (source lines 232-240: the close and `os.rename`
precede `os.system("sudo shutdown -h now")`), and the moved file in the
completed-jobs directory holds exactly the header row plus all data rows
collected so far (the session content at the moment of closure). -/
theorem shutdown_confirm_close_before_invoke (st : SenseState) (u : InputEvent)
    (n : String) (rows : List Row)
    (hrec : st.recordingState = true)
    (hname : st.currentFileName = some n)
    (hfile : lookupFile st.workingDir n = some (headerRow :: rows))
    (hdir : u.direction = Direction.up)
    (hact : u.action = JAction.pressed ∨ u.action = JAction.held) :
    (downHeldStep st u).effs =
      shutdownPreEffs ++
        [Effect.showMessage "SHUTDOWN", Effect.closeFile n,
         Effect.renameToFinished n,
         Effect.logLine "Finished active recording due to shutdown command.",
         Effect.setPixels Glyph.loggedG, Effect.sleep 2,
         Effect.logLine "User confirmed shutdown command - shutting down!",
         Effect.invokeShutdown] ∧
    (downHeldStep st u).st.finishedDir = st.finishedDir ++ [(n, headerRow :: rows)] ∧
    (downHeldStep st u).st.workingDir = removeFile st.workingDir n ∧
    (downHeldStep st u).st.recordingState = false ∧
    (downHeldStep st u).err = none := by
  obtain ⟨ud, ua⟩ := u
  simp only at hdir hact
  subst hdir
  have hcm : closeAndMove
        { st with recordingState := true,
                  display := Display.shows Glyph.areYouSureG } =
      ([Effect.closeFile n, Effect.renameToFinished n],
       { st with recordingState := true,
                 display := Display.shows Glyph.areYouSureG,
                 workingDir := removeFile st.workingDir n,
                 finishedDir := st.finishedDir ++ [(n, headerRow :: rows)] },
       none) := by
    simp only [closeAndMove, hname, hfile]
  rcases hact with ha | ha <;> subst ha <;>
    · simp [downHeldStep, shutdownFollow, hrec]
      rw [hcm]
      simp [shutdownPreEffs]
/-- Witness for C3: a concrete mid-session state whose file holds the header
row and no data rows yet. -/
theorem shutdown_confirm_close_before_invoke_witness :
    (downHeldStep stRecA ⟨Direction.up, JAction.pressed⟩).effs =
      shutdownPreEffs ++
        [Effect.showMessage "SHUTDOWN",
         Effect.closeFile "SenseLog-20160101_000000.csv",
         Effect.renameToFinished "SenseLog-20160101_000000.csv",
         Effect.logLine "Finished active recording due to shutdown command.",
         Effect.setPixels Glyph.loggedG, Effect.sleep 2,
         Effect.logLine "User confirmed shutdown command - shutting down!",
         Effect.invokeShutdown] ∧
    (downHeldStep stRecA ⟨Direction.up, JAction.pressed⟩).st.finishedDir =
      stRecA.finishedDir ++ [("SenseLog-20160101_000000.csv", headerRow :: [])] ∧
    (downHeldStep stRecA ⟨Direction.up, JAction.pressed⟩).st.workingDir =
      removeFile stRecA.workingDir "SenseLog-20160101_000000.csv" ∧
    (downHeldStep stRecA ⟨Direction.up, JAction.pressed⟩).st.recordingState = false ∧
    (downHeldStep stRecA ⟨Direction.up, JAction.pressed⟩).err = none :=
  shutdown_confirm_close_before_invoke stRecA ⟨Direction.up, JAction.pressed⟩
    "SenseLog-20160101_000000.csv" [] rfl rfl rfl rfl (Or.inl rfl)

/-- C6 (amended): if, on a LEFT press while Idle, the output file cannot be
created, the `IOError` from `open` at source line 120 propagates uncaught
(`fileSetup` and `main` have no handler): the recording flag is never set to
true (line 195 is not reached), but the main loop does not continue - it
terminates with the exception, the `finally` of lines 257-259 clearing the
LEDs; the rest of the trace is discarded.  Only `currentFileName` was
already assigned (line 191 runs before the `open`). -/
theorem open_failure_is_fatal (env : Env) (st : SenseState)
    (rest : List TraceStep)
    (hOpen : env.openFails = true) (hIdle : st.recordingState = false) :
    runTrace env st (TraceStep.ev ⟨Direction.left, JAction.pressed⟩ :: rest) =
      RunResult.crashed "IOError: could not create file"
        { st with currentFileName := some (sessionName env),
                  display := Display.cleared }
        [Effect.logLine ("Opening file " ++ sessionName env ++ " for writing."),
         Effect.clearLEDs] ∧
    (runTrace env st
        (TraceStep.ev ⟨Direction.left, JAction.pressed⟩ :: rest)).stateOf.recordingState =
      st.recordingState := by
  have hp : handlePressed env st Direction.left =
      { effs := [Effect.logLine ("Opening file " ++ sessionName env ++ " for writing.")],
        st := { st with currentFileName := some (sessionName env) },
        err := some "IOError: could not create file" } := by
    simp [handlePressed, fileSetup, hOpen, hIdle]
  constructor
  · simp only [runTrace, List.length_cons, runAux, hp]
    simp
  · simp only [runTrace, List.length_cons, runAux, hp]
    simp [RunResult.stateOf]
/-- Witness for C6 (amended) at a concrete failing environment. -/
theorem open_failure_is_fatal_witness :
    (runTrace envBadOpen st0
        (TraceStep.ev ⟨Direction.left, JAction.pressed⟩ :: [TraceStep.endWindow sampleA]) =
      RunResult.crashed "IOError: could not create file"
        { st0 with currentFileName := some (sessionName envBadOpen),
                   display := Display.cleared }
        [Effect.logLine ("Opening file " ++ sessionName envBadOpen ++ " for writing."),
         Effect.clearLEDs]) ∧
    (runTrace envBadOpen st0
        (TraceStep.ev ⟨Direction.left, JAction.pressed⟩ :: [TraceStep.endWindow sampleA])).stateOf.recordingState =
      st0.recordingState :=
  open_failure_is_fatal envBadOpen st0 [TraceStep.endWindow sampleA] rfl rfl

/-- Counterexample for C6 as stated: the claim says a session-open failure
leaves the program Idle with the main loop still running (not fatal to the
process).  On the concrete input - a LEFT press from the initial state with
`open` failing - the run is fatal (`fatal = true`): the exception is not
caught and the loop dies.  The recording flag is indeed still false, which
is the part of the claim the code does satisfy. -/
theorem open_failure_counterexample :
    (runTrace envBadOpen st0 [TraceStep.ev ⟨Direction.left, JAction.pressed⟩]).fatal = true ∧
    (runTrace envBadOpen st0 [TraceStep.ev ⟨Direction.left, JAction.pressed⟩]).stateOf.recordingState = false := by
  decide
theorem runTrace_nil (env : Env) (st : SenseState) :
    runTrace env st [] = RunResult.awaiting st [] := rfl

theorem runTrace_cons_ev_ok (env : Env) (st st1 : SenseState) (e : InputEvent)
    (fe : List Effect) (rest : List TraceStep)
    (hp : e.action = JAction.pressed)
    (hh : handlePressed env st e.direction = ⟨fe, st1, none⟩) :
    runTrace env st (TraceStep.ev e :: rest) =
      (runTrace env st1 rest).withEffs fe := by
  simp only [runTrace, List.length_cons, runAux, hp, hh]
  simp

theorem runTrace_cons_tick (env : Env) (st : SenseState) (n : String)
    (s : SenseSample) (rest : List TraceStep)
    (hrec : st.recordingState = true)
    (hname : st.currentFileName = some n) :
    runTrace env st (TraceStep.endWindow s :: rest) =
      (runTrace env
          { st with workingDir := updateFile st.workingDir n (dataRow s) }
          rest).withEffs
        [Effect.logLine "Saving data.", Effect.writeRow n (dataRow s)] := by
  simp only [runTrace, List.length_cons, runAux, hrec, hname]
  simp

/-- C2: for every number of LEFT-pressed events delivered while Idle
(here `m + 1` of them in one poll window), the run is identical to the run
with a single LEFT press: exactly one session is created (one `openFile`
effect, one handle number allocated, `nextFd` goes from 0 to 1), and a LEFT
press while already Recording is a complete no-op (`handlePressed` returns
the state unchanged with no effects), so it neither creates a session nor
reassigns `currentFileName` or `outputFD`. -/
theorem left_press_single_session (env : Env) (m : Nat) (s : SenseSample)
    (st : SenseState)
    (hOpen : env.openFails = false) (hst : st.recordingState = true) :
    runTrace env st0
        (List.replicate (m + 1) (TraceStep.ev ⟨Direction.left, JAction.pressed⟩) ++
          [TraceStep.endWindow s]) =
      runTrace env st0
        [TraceStep.ev ⟨Direction.left, JAction.pressed⟩, TraceStep.endWindow s] ∧
    runTrace env st0
        [TraceStep.ev ⟨Direction.left, JAction.pressed⟩, TraceStep.endWindow s] =
      RunResult.awaiting (afterOneSample env s)
        (leftStepEffs env ++
          [Effect.logLine "Saving data.",
           Effect.writeRow (sessionName env) (dataRow s)]) ∧
    countOpens (leftStepEffs env ++
        [Effect.logLine "Saving data.",
         Effect.writeRow (sessionName env) (dataRow s)]) = 1 ∧
    (afterOneSample env s).outputFD = some 0 ∧
    (afterOneSample env s).nextFd = 1 ∧
    (afterOneSample env s).currentFileName = some (sessionName env) ∧
    handlePressed env st Direction.left = ⟨[], st, none⟩ := by
  have hL : handlePressed env st0 Direction.left =
      ⟨leftStepEffs env, leftStepState env, none⟩ :=
    handlePressed_left_idle env hOpen
  have hsingle : runTrace env st0
      [TraceStep.ev ⟨Direction.left, JAction.pressed⟩, TraceStep.endWindow s] =
      RunResult.awaiting (afterOneSample env s)
        (leftStepEffs env ++
          [Effect.logLine "Saving data.",
           Effect.writeRow (sessionName env) (dataRow s)]) := by
    rw [runTrace_cons_ev_ok env st0 (leftStepState env) _ _ _ rfl hL]
    rw [runTrace_cons_tick env (leftStepState env) (sessionName env) s [] rfl rfl]
    rw [runTrace_nil]
    simp [RunResult.withEffs, leftStepState, afterOneSample, updateFile]
  refine ⟨?_, hsingle, by rfl, rfl, rfl, rfl, handlePressed_left_rec env st hst⟩
  have h1 : runTrace env st0
      (List.replicate (m + 1) (TraceStep.ev ⟨Direction.left, JAction.pressed⟩) ++
        [TraceStep.endWindow s]) =
      (runTrace env (leftStepState env)
          (List.replicate m (TraceStep.ev ⟨Direction.left, JAction.pressed⟩) ++
            [TraceStep.endWindow s])).withEffs (leftStepEffs env) := by
    rw [List.replicate_succ, List.cons_append]
    exact runTrace_cons_ev_ok env st0 (leftStepState env) _ _ _ rfl hL
  have h2 : runTrace env (leftStepState env)
      (List.replicate m (TraceStep.ev ⟨Direction.left, JAction.pressed⟩) ++
        [TraceStep.endWindow s]) =
      runTrace env (leftStepState env) [TraceStep.endWindow s] := by
    simp only [runTrace, List.length_append, List.length_replicate,
      List.length_cons, List.length_nil, Nat.zero_add]
    rw [Nat.add_comm m 1]
    exact runAux_left_noop env m 1 (leftStepState env) [TraceStep.endWindow s] rfl
  rw [h1, h2]
  rw [runTrace_cons_ev_ok env st0 (leftStepState env) _ _ [TraceStep.endWindow s] rfl hL]
/-- Witness for C2 with three LEFT presses in one window. -/
theorem left_press_single_session_witness :
    runTrace envA st0
        (List.replicate (2 + 1) (TraceStep.ev ⟨Direction.left, JAction.pressed⟩) ++
          [TraceStep.endWindow sampleA]) =
      runTrace envA st0
        [TraceStep.ev ⟨Direction.left, JAction.pressed⟩, TraceStep.endWindow sampleA] ∧
    runTrace envA st0
        [TraceStep.ev ⟨Direction.left, JAction.pressed⟩, TraceStep.endWindow sampleA] =
      RunResult.awaiting (afterOneSample envA sampleA)
        (leftStepEffs envA ++
          [Effect.logLine "Saving data.",
           Effect.writeRow (sessionName envA) (dataRow sampleA)]) ∧
    countOpens (leftStepEffs envA ++
        [Effect.logLine "Saving data.",
         Effect.writeRow (sessionName envA) (dataRow sampleA)]) = 1 ∧
    (afterOneSample envA sampleA).outputFD = some 0 ∧
    (afterOneSample envA sampleA).nextFd = 1 ∧
    (afterOneSample envA sampleA).currentFileName = some (sessionName envA) ∧
    handlePressed envA stRecA Direction.left = ⟨[], stRecA, none⟩ :=
  left_press_single_session envA 2 sampleA stRecA rfl rfl

/-- C1 (evaluation at the failing input): a full LEFT - one sampling tick -
RIGHT cycle from the initial state produces a file with exactly one header
row and one data row per tick, and the file ends up in the completed-jobs
directory with the working directory empty.  However, only the header row
has 14 comma-separated fields: every data row has 17 fields, because
`getSenseData` also collects the three accelerometer values (source line
152) which the 14-name header of line 118 omits - contradicting the source
comment at line 116 ("headers are the columns and match data collected in
getSenseData()") and refuting the claim that every row has exactly 14
fields. -/
theorem left_right_cycle_file_shape :
    (runTrace envA st0 cycleTraceA).stateOf.finishedDir =
      [(sessionName envA, [headerRow, dataRow sampleA])] ∧
    (runTrace envA st0 cycleTraceA).stateOf.workingDir = [] ∧
    (runTrace envA st0 cycleTraceA).fatal = false ∧
    headerRow.length = 14 ∧
    (dataRow sampleA).length = 17 ∧ ¬ (dataRow sampleA).length = 14 := by
  decide
